import Mathlib

/-!
Shallow embedding of `scripts/tickets.py` (docker-xs-dev-dash): a script that
polls a JIRA instance for issue counts, field sums and sprint velocity and
writes the resulting metrics to a time-series database.

External collaborators (the JIRA client and the metric writer `db_write`) are
modelled as oracles: a `JiraClient` is a bundle of response functions, and a
run's writes are collected in the returned `RunOutcome` instead of being
performed.  Python floats are modelled as `ℚ`; `None` and the `"AUTH_ERROR"`
string sentinel become explicit constructors.  `exit(n)` together with the
diagnostic written to standard error becomes the `ProcExit` error of an
`Except`.
-/

namespace Tickets

/-- Constant `DB_URI` from the script. -/
def DB_URI : String := "http://localhost:8086/write?db=inforad"

/-- The static table `COUNT_QUERIES`: dashboard key to JIRA filter id. -/
def COUNT_QUERIES : List (String × Nat) :=
  [("dc_inbox", 47168),
   ("CA,priority=Blocker", 47165),
   ("CA,priority=Critical", 47166),
   ("CA,priority=Major", 47167),
   ("CA,priority=MinorAndTrivial", 47876),
   ("CA,priority=Non-bug", 48477),
   ("CA,workflow=Blocked", 52664),
   ("SCTX", 47170),
   ("XOP", 47169),
   ("PAR", 47171),
   ("Hotlist", 47531),
   ("Staging", 48797),
   ("FalconMustFix", 57062)]

def QRF_DB_KEY : String := "CA,priority=QRF"

def QRF_JIRA_FILTER : Nat := 47875

def BACKLOG_DEPTH_DB_KEY : String := "backlog_depth"

def BACKLOG_DEPTH_JIRA_FILTER : Nat := 50374

def SPRINT_BURNDOWN_DB_KEY : String := "sprint_burndown"

def SPRINT_BURNDOWN_JIRA_FILTER : Nat := 50375

def SPRINT_VELOCITY_DB_KEY : String := "sprint_velocity"

def SPRINT_BOARD_ID : Nat := 70

def SPRINT_REGEX : String := "^xs-ring3\\s.+"

def KEY_FIELD : String := "key"

def DRV_FIELD : String := "customfield_18131"

def STORY_POINTS_FIELD : String := "customfield_11332"

/-- A `JIRAError` as observed by the script: only its `status_code` attribute
is inspected (it may be `None` in Python, hence `Option`). -/
structure JiraError where
  status_code : Option Nat
deriving DecidableEq

/-- A saved JIRA filter resource; the script only reads its `jql` attribute. -/
structure JiraFilter where
  jql : String
deriving DecidableEq

/-- A JIRA issue as the script sees it: `getattr(issue.fields, f)` is the
lookup `fieldValue f`, where `none` models an absent/null field value and
numeric field values are rationals. -/
structure Issue where
  fieldValue : String → Option ℚ

/-- The result of `jira.search_issues`: the page of issues plus the `total`
attribute (total number of matching issues, independent of `maxResults`). -/
structure SearchResult where
  issues : List Issue
  total : Nat

/-- A sprint: identifier, name and lifecycle state (the script compares the
state against the literal string `'CLOSED'`). -/
structure Sprint where
  id : Nat
  name : String
  state : String
deriving DecidableEq

/-- Errors `jira.completedIssuesEstimateSum` can raise: a `KeyError`
(caught per-sprint by the script) or a `JIRAError` (caught by the outer
handler). -/
inductive EstError where
  | keyError : EstError
  | jiraError (e : JiraError) : EstError
deriving DecidableEq

/-- The JIRA client oracle: one response function per API call the script
makes.  `search_issues` takes the jql string, the `maxResults` argument
(`none` models Python `False`, i.e. fetch all) and the comma-joined field
projection. -/
structure JiraClient where
  filter : Nat → Except JiraError JiraFilter
  search_issues : String → Option Nat → String → Except JiraError SearchResult
  sprints : Nat → Except JiraError (List Sprint)
  completedIssuesEstimateSum : Nat → Nat → Except EstError ℚ

/-- A `sys.exit(code)` after writing diagnostics to standard error. -/
structure ProcExit where
  code : Nat
  errLines : List String
deriving DecidableEq

/-! ### Regex matching (`re.match` on the fragment the script uses)

The script's only pattern is `^xs-ring3\s.+`.  We embed `re.match` for the
regex fragment of literals, `.`, `\s`, `\c` escapes and the `+`/`*`
quantifiers.  `re.match` is anchored at the start of the string and matches
a prefix; it is case-sensitive. -/

/-- A single regex atom. -/
inductive RAtom where
  | lit (c : Char) : RAtom
  | anyChar : RAtom
  | space : RAtom
deriving DecidableEq

/-- Quantifier attached to an atom. -/
inductive RQuant where
  | one : RQuant
  | plus : RQuant
  | star : RQuant
deriving DecidableEq

/-- An escape `\c`: `\s` is the whitespace class, anything else a literal. -/
def atomOfEsc (c : Char) : RAtom :=
  if c = 's' then RAtom.space else RAtom.lit c

/-- Parse a pattern (already stripped of a leading `^`) into quantified
atoms. -/
def parseAtoms : List Char → List (RAtom × RQuant)
  | [] => []
  | '\\' :: c :: '+' :: rest => (atomOfEsc c, RQuant.plus) :: parseAtoms rest
  | '\\' :: c :: '*' :: rest => (atomOfEsc c, RQuant.star) :: parseAtoms rest
  | '\\' :: c :: rest => (atomOfEsc c, RQuant.one) :: parseAtoms rest
  | '.' :: '+' :: rest => (RAtom.anyChar, RQuant.plus) :: parseAtoms rest
  | '.' :: '*' :: rest => (RAtom.anyChar, RQuant.star) :: parseAtoms rest
  | '.' :: rest => (RAtom.anyChar, RQuant.one) :: parseAtoms rest
  | c :: '+' :: rest => (RAtom.lit c, RQuant.plus) :: parseAtoms rest
  | c :: '*' :: rest => (RAtom.lit c, RQuant.star) :: parseAtoms rest
  | c :: rest => (RAtom.lit c, RQuant.one) :: parseAtoms rest

/-- Parse a whole pattern; a leading `^` is redundant under `re.match`'s
anchoring and is stripped. -/
def parseRegex (p : String) : List (RAtom × RQuant) :=
  match p.data with
  | '^' :: rest => parseAtoms rest
  | cs => parseAtoms cs

/-- Whether an atom matches one character (`.` excludes newline; `\s` is
`[ \t\n\r\f\v]`). -/
def matchAtom : RAtom → Char → Bool
  | RAtom.lit c, d => c == d
  | RAtom.anyChar, d => d != '\n'
  | RAtom.space, d =>
      d == ' ' || d == '\t' || d == '\n' || d == '\r' || d == '\x0c' || d == '\x0b'

/-- Kleene iteration of one atom in front of a continuation `k`: succeed on
the current remainder via `k`, or consume one matching character and
iterate. -/
def matchStar (a : RAtom) (k : List Char → Bool) : List Char → Bool
  | [] => k []
  | c :: cs => k (c :: cs) || (matchAtom a c && matchStar a k cs)

/-- Prefix matching of a quantified-atom sequence against a character list:
the empty pattern matches any remainder (`re.match` only requires a prefix
match). -/
def matchSeq : List (RAtom × RQuant) → List Char → Bool
  | [], _ => true
  | (_, RQuant.one) :: _, [] => false
  | (a, RQuant.one) :: ps, c :: cs => matchAtom a c && matchSeq ps cs
  | (_, RQuant.plus) :: _, [] => false
  | (a, RQuant.plus) :: ps, c :: cs =>
      matchAtom a c && matchStar a (matchSeq ps) cs
  | (a, RQuant.star) :: ps, s => matchStar a (matchSeq ps) s

/-- `re.match(pattern, s)` truthiness: anchored, case-sensitive prefix
match. -/
def reMatch (pattern s : String) : Bool :=
  matchSeq (parseRegex pattern) s.data

/-! ### Rounding

The script runs under Python 2, whose `round` rounds to the closest multiple
of `10^-n`, ties away from zero. -/

/-- Round a rational to the nearest integer, ties away from zero. -/
def pyRoundInt (x : ℚ) : ℤ :=
  if 0 ≤ x then ⌊x + 1 / 2⌋ else -⌊-x + 1 / 2⌋

/-- Python 2 `round(x, n)` on rationals. -/
def roundTo (n : Nat) (x : ℚ) : ℚ :=
  (pyRoundInt (x * 10 ^ n) : ℚ) / 10 ^ n

/-! ### Issue retrieval and the field-sum aggregators -/

/-- The diagnostic line written before `exit(3)` (the `%s`-interpolated
exception text is abstracted away). -/
def jiraFailLine : String := "error: Connection to JIRA failed\n"

/-- `retrieve_issues`: resolve the saved filter, then search with its jql;
`limit=None` becomes `maxResults=False` (here `none`), the field list is
comma-joined.  Any `JIRAError` exits the process with status 3 after a
diagnostic on standard error. -/
def retrieve_issues (jira : JiraClient) (filter_id : Nat) (fields : List String)
    (limit : Option Nat := none) : Except ProcExit SearchResult :=
  let max_results : Option Nat := limit
  let fieldsJoined : String := String.intercalate "," fields
  match jira.filter filter_id with
  | Except.error _ => Except.error ⟨3, [jiraFailLine]⟩
  | Except.ok the_filter =>
    match jira.search_issues the_filter.jql max_results fieldsJoined with
    | Except.error _ => Except.error ⟨3, [jiraFailLine]⟩
    | Except.ok issues => Except.ok issues

/-- `retrieve_issue_count`: search with `fields=[KEY_FIELD]` and `limit=1`,
return the `total` attribute. -/
def retrieve_issue_count (jira : JiraClient) (jira_filter : Nat) :
    Except ProcExit Nat :=
  (retrieve_issues jira jira_filter [KEY_FIELD] (some 1)).map SearchResult.total

/-- `retrieve_sum_of_field`: fetch all issues with only `field` projected and
sum the non-`None` values (`sum([f for f in fields if f is not None])`). -/
def retrieve_sum_of_field (jira : JiraClient) (jira_filter : Nat)
    (field : String) : Except ProcExit ℚ :=
  (retrieve_issues jira jira_filter [field]).map fun issues =>
    ((issues.issues.map fun issue => issue.fieldValue field).filterMap id).sum

/-- `retrieve_qrf`: DRV field sum over the QRF filter, rounded to 3 decimal
places. -/
def retrieve_qrf (jira : JiraClient) : Except ProcExit ℚ :=
  (retrieve_sum_of_field jira QRF_JIRA_FILTER DRV_FIELD).map (roundTo 3)

/-- `retrieve_backlog_depth`: story-points sum over the backlog filter,
rounded to 2 decimal places. -/
def retrieve_backlog_depth (jira : JiraClient) : Except ProcExit ℚ :=
  (retrieve_sum_of_field jira BACKLOG_DEPTH_JIRA_FILTER STORY_POINTS_FIELD).map
    (roundTo 2)

/-- `retrieve_sprint_burndown`: story-points sum over the burndown filter,
unrounded. -/
def retrieve_sprint_burndown (jira : JiraClient) : Except ProcExit ℚ :=
  retrieve_sum_of_field jira SPRINT_BURNDOWN_JIRA_FILTER STORY_POINTS_FIELD

/-! ### Sprint velocity aggregator -/

/-- What `retrieve_sprint_velocity` can return: a rounded float, the float
`nan`, the string `"AUTH_ERROR"`, or Python `None` (falling off the `except`
block without returning). -/
inductive VelocityResult where
  | num (v : ℚ) : VelocityResult
  | nan : VelocityResult
  | authError : VelocityResult
  | pyNone : VelocityResult
deriving DecidableEq

/-- Stable insertion of a sprint into a list sorted by id descending
(an earlier element stays in front of later elements with equal id, matching
Python's stable `sorted(..., reverse=True)`). -/
def insertDescById (s : Sprint) : List Sprint → List Sprint
  | [] => [s]
  | t :: ts => if t.id ≤ s.id then s :: t :: ts else t :: insertDescById s ts

/-- `sorted(l, key=id_of_sprint, reverse=True)`: stable sort by id
descending. -/
def sortDescById : List Sprint → List Sprint
  | [] => []
  | s :: rest => insertDescById s (sortDescById rest)

/-- The regex-filtering step: `if sprint_regex:` is Python truthiness, so
both `None` and the empty pattern leave the list unfiltered. -/
def filterByRegex (sprint_regex : Option String) (sprints : List Sprint) :
    List Sprint :=
  match sprint_regex with
  | none => sprints
  | some pat => if pat = "" then sprints else
      sprints.filter fun s => reMatch pat s.name

/-- Lines 96-104 of the script: regex filter, keep `'CLOSED'` sprints, sort
by id descending, take the first `window`. -/
def latestCompleted (sprint_regex : Option String) (window : Nat)
    (sprints : List Sprint) : List Sprint :=
  let filtered := filterByRegex sprint_regex sprints
  let completed := filtered.filter fun s => s.state == "CLOSED"
  (sortDescById completed).take window

/-- The estimate-collection loop (lines 106-111): append each sprint's
completed-issue estimate sum, `continue` on `KeyError`; a `JIRAError`
escapes to the outer handler, discarding the partial list. -/
def collectVels (est : Nat → Except EstError ℚ) :
    List Sprint → Except JiraError (List ℚ)
  | [] => Except.ok []
  | spr :: rest =>
    match est spr.id with
    | Except.ok v =>
      match collectVels est rest with
      | Except.ok vs => Except.ok (v :: vs)
      | Except.error e => Except.error e
    | Except.error EstError.keyError => collectVels est rest
    | Except.error (EstError.jiraError e) => Except.error e

/-- The warning line written on an authorization failure. -/
def authWarnLine : String := "warn: Auth error in retrieve_sprint_velocity\n"

/-- `retrieve_sprint_velocity`: list the board's sprints, select the window
of latest completed ones, collect their estimate sums, and return the mean
rounded to 1 decimal (or `nan` when no sprint yielded a value).  A
`JIRAError` with status 403 yields the `"AUTH_ERROR"` sentinel after a
warning on standard error; any other `JIRAError` falls through to `None`.
The second component is what the call writes to standard error. -/
def retrieve_sprint_velocity (jira : JiraClient) (board_id : Nat)
    (sprint_regex : Option String := none) (window : Nat := 3) :
    VelocityResult × List String :=
  match jira.sprints board_id with
  | Except.error exn =>
    if exn.status_code == some 403 then
      (VelocityResult.authError, [authWarnLine])
    else
      (VelocityResult.pyNone, [])
  | Except.ok sprints =>
    let latest := latestCompleted sprint_regex window sprints
    match collectVels (jira.completedIssuesEstimateSum board_id) latest with
    | Except.error exn =>
      if exn.status_code == some 403 then
        (VelocityResult.authError, [authWarnLine])
      else
        (VelocityResult.pyNone, [])
    | Except.ok vels =>
      match vels with
      | [] => (VelocityResult.nan, [])
      | v :: vs =>
        (VelocityResult.num
          (roundTo 1 (((v :: vs).sum) / ((v :: vs).length : ℚ))), [])

/-! ### Run orchestration (`main`) -/

/-- A value stored in the `values` dict: an issue count (Python int), a float
(`num` or `nan`), the `"AUTH_ERROR"` string, or `None`. -/
inductive MetricValue where
  | count (n : Nat) : MetricValue
  | num (q : ℚ) : MetricValue
  | nan : MetricValue
  | str (s : String) : MetricValue
  | pyNone : MetricValue
deriving DecidableEq

/-- What a `VelocityResult` looks like once stored in the `values` dict. -/
def velocityToMetric : VelocityResult → MetricValue
  | VelocityResult.num q => MetricValue.num q
  | VelocityResult.nan => MetricValue.nan
  | VelocityResult.authError => MetricValue.str "AUTH_ERROR"
  | VelocityResult.pyNone => MetricValue.pyNone

/-- The `COUNT_QUERIES` loop of `main`: one issue count per table entry;
the first failing retrieval exits the process. -/
def computeCounts (jira : JiraClient) :
    List (String × Nat) → Except ProcExit (List (String × MetricValue))
  | [] => Except.ok []
  | (db_key, jira_filter) :: rest =>
    match retrieve_issue_count jira jira_filter with
    | Except.error pe => Except.error pe
    | Except.ok n =>
      match computeCounts jira rest with
      | Except.error pe => Except.error pe
      | Except.ok vs => Except.ok ((db_key, MetricValue.count n) :: vs)

/-- Lines 160-167 of `main`: build the `values` mapping (association list in
insertion order) and collect the standard-error lines the velocity call
produced.  A failing count or sum retrieval exits the process. -/
def computeValues (jira : JiraClient) :
    Except ProcExit (List (String × MetricValue) × List String) :=
  match computeCounts jira COUNT_QUERIES with
  | Except.error pe => Except.error pe
  | Except.ok counts =>
    match retrieve_qrf jira with
    | Except.error pe => Except.error pe
    | Except.ok qrf =>
      match retrieve_backlog_depth jira with
      | Except.error pe => Except.error pe
      | Except.ok bkl_depth =>
        match retrieve_sprint_burndown jira with
        | Except.error pe => Except.error pe
        | Except.ok burndown =>
          let vel :=
            retrieve_sprint_velocity jira SPRINT_BOARD_ID (some SPRINT_REGEX) 3
          Except.ok
            (counts ++
              [(QRF_DB_KEY, MetricValue.num qrf),
               (BACKLOG_DEPTH_DB_KEY, MetricValue.num bkl_depth),
               (SPRINT_BURNDOWN_DB_KEY, MetricValue.num burndown),
               (SPRINT_VELOCITY_DB_KEY, velocityToMetric vel.1)],
             vel.2)

/-- One `db_write(DB_URI, key, value, tstamp)` invocation. -/
structure WriteCall where
  uri : String
  key : String
  value : MetricValue
  tstamp : Nat
deriving DecidableEq

/-- The observable outcome of a run: the `db_write` calls performed, the
mapping printed in dry-run mode (if any), the process exit code and the
standard-error lines. -/
structure RunOutcome where
  writes : List WriteCall
  printed : Option (List (String × MetricValue))
  exitCode : Nat
  errLines : List String
deriving DecidableEq

/-- `main` (after login): compute all values; in dry-run mode print the
mapping and exit 0 without writing; otherwise capture one timestamp
`int(time.time()) * 10 ** 9` and write every pair with it.  `timeSec` is the
single `time.time()` sample (truncated to seconds). -/
def main (jira : JiraClient) (dry_run : Bool) (timeSec : Nat) : RunOutcome :=
  match computeValues jira with
  | Except.error pe => ⟨[], none, pe.code, pe.errLines⟩
  | Except.ok (values, warnings) =>
    if dry_run then
      ⟨[], some values, 0, warnings⟩
    else
      let tstamp := timeSec * 10 ^ 9
      ⟨values.map fun kv => ⟨DB_URI, kv.1, kv.2, tstamp⟩, none, 0, warnings⟩

/-! ### Helper lemmas -/

theorem mem_insertDescById {a s : Sprint} {l : List Sprint} :
    a ∈ insertDescById s l ↔ a = s ∨ a ∈ l := by
  induction l with
  | nil => simp [insertDescById]
  | cons t ts ih =>
    by_cases hc : t.id ≤ s.id
    · simp [insertDescById, hc]
    · simp [insertDescById, hc, ih]
      tauto

theorem mem_sortDescById {a : Sprint} {l : List Sprint} :
    a ∈ sortDescById l ↔ a ∈ l := by
  induction l with
  | nil => simp [sortDescById]
  | cons s rest ih => simp [sortDescById, mem_insertDescById, ih]

theorem pairwise_insertDescById {s : Sprint} {l : List Sprint}
    (h : l.Pairwise fun a b => b.id ≤ a.id) :
    (insertDescById s l).Pairwise fun a b => b.id ≤ a.id := by
  induction l with
  | nil => simp [insertDescById]
  | cons t ts ih =>
    rw [List.pairwise_cons] at h
    obtain ⟨ht, hts⟩ := h
    by_cases hc : t.id ≤ s.id
    · rw [insertDescById, if_pos hc]
      refine List.pairwise_cons.2 ⟨?_, List.pairwise_cons.2 ⟨ht, hts⟩⟩
      intro x hx
      rcases List.mem_cons.1 hx with hx | hx
      · exact hx ▸ hc
      · exact le_trans (ht x hx) hc
    · rw [insertDescById, if_neg hc]
      refine List.pairwise_cons.2 ⟨?_, ih hts⟩
      intro x hx
      rcases mem_insertDescById.1 hx with hx | hx
      · subst hx; omega
      · exact ht x hx

theorem pairwise_sortDescById (l : List Sprint) :
    (sortDescById l).Pairwise fun a b => b.id ≤ a.id := by
  induction l with
  | nil => simp [sortDescById]
  | cons s rest ih => exact pairwise_insertDescById ih

theorem filterMap_fieldValue_sum (l : List Issue) (field : String) :
    (l.filterMap fun issue => issue.fieldValue field).sum =
      (l.map fun issue => (issue.fieldValue field).getD 0).sum := by
  induction l with
  | nil => simp
  | cons i is ih => cases h : i.fieldValue field <;> simp [h, ih]

theorem abs_pyRoundInt_sub (y : ℚ) : |(pyRoundInt y : ℚ) - y| ≤ 1 / 2 := by
  by_cases h : 0 ≤ y
  · rw [pyRoundInt, if_pos h, abs_le]
    have h1 := Int.floor_le (y + 1 / 2)
    have h2 := Int.lt_floor_add_one (y + 1 / 2)
    constructor <;> linarith
  · rw [pyRoundInt, if_neg h, abs_le]
    have h1 := Int.floor_le (-y + 1 / 2)
    have h2 := Int.lt_floor_add_one (-y + 1 / 2)
    push_cast
    constructor <;> linarith

theorem roundTo_mul_pow (n : Nat) (x : ℚ) :
    roundTo n x * 10 ^ n = (pyRoundInt (x * 10 ^ n) : ℚ) := by
  have h10 : ((10 : ℚ) ^ n) ≠ 0 := by positivity
  field_simp [roundTo]

theorem roundTo_close (n : Nat) (x : ℚ) :
    |roundTo n x - x| ≤ 1 / (2 * 10 ^ n) := by
  have h10 : (0 : ℚ) < 10 ^ n := by positivity
  have heq : roundTo n x - x =
      ((pyRoundInt (x * 10 ^ n) : ℚ) - x * 10 ^ n) / 10 ^ n := by
    field_simp [roundTo]
    ring
  rw [heq, abs_div, abs_of_pos h10, div_le_div_iff₀ h10 (by positivity)]
  have h := abs_pyRoundInt_sub (x * 10 ^ n)
  calc |(pyRoundInt (x * 10 ^ n) : ℚ) - x * 10 ^ n| * (2 * 10 ^ n)
      ≤ (1 / 2) * (2 * 10 ^ n) := by
        apply mul_le_mul_of_nonneg_right h
        positivity
    _ = 1 * 10 ^ n := by ring

/-! ### Concrete oracle clients used by witnesses and counterexamples -/

/-- A client whose every call fails with a 403 `JIRAError`. -/
def authJira : JiraClient where
  filter := fun _ => Except.error ⟨some 403⟩
  search_issues := fun _ _ _ => Except.error ⟨some 403⟩
  sprints := fun _ => Except.ok []
  completedIssuesEstimateSum := fun _ _ => Except.error EstError.keyError

/-- A client whose sprint listing fails with a 403 `JIRAError`. -/
def authSprintsJira : JiraClient where
  filter := fun _ => Except.ok ⟨"jql"⟩
  search_issues := fun _ _ _ => Except.ok ⟨[], 0⟩
  sprints := fun _ => Except.error ⟨some 403⟩
  completedIssuesEstimateSum := fun _ _ => Except.ok 0

/-- A client whose sprint listing succeeds with one closed sprint but whose
estimate lookup raises a 403 `JIRAError`. -/
def listOkEstFailJira : JiraClient where
  filter := fun _ => Except.ok ⟨"jql"⟩
  search_issues := fun _ _ _ => Except.ok ⟨[], 0⟩
  sprints := fun _ => Except.ok [⟨1, "s1", "CLOSED"⟩]
  completedIssuesEstimateSum := fun _ _ =>
    Except.error (EstError.jiraError ⟨some 403⟩)

/-- A client with one closed sprint whose estimate sum is 5. -/
def okVelJira : JiraClient where
  filter := fun _ => Except.ok ⟨"jql"⟩
  search_issues := fun _ _ _ => Except.ok ⟨[], 0⟩
  sprints := fun _ => Except.ok [⟨1, "s1", "CLOSED"⟩]
  completedIssuesEstimateSum := fun _ _ => Except.ok 5

/-- An estimate oracle that raises `KeyError` for sprint 2 and returns 7
otherwise. -/
def skipEst : Nat → Except EstError ℚ := fun n =>
  if n = 2 then Except.error EstError.keyError else Except.ok 7

/-- A client returning three issues whose field values are 5, null and 3. -/
def nullFieldJira : JiraClient where
  filter := fun _ => Except.ok ⟨"jql"⟩
  search_issues := fun _ _ _ =>
    Except.ok ⟨[⟨fun _ => some 5⟩, ⟨fun _ => none⟩, ⟨fun _ => some 3⟩], 3⟩
  sprints := fun _ => Except.ok []
  completedIssuesEstimateSum := fun _ _ => Except.ok 0

/-- A client returning zero matching issues. -/
def emptyJira : JiraClient where
  filter := fun _ => Except.ok ⟨"jql"⟩
  search_issues := fun _ _ _ => Except.ok ⟨[], 0⟩
  sprints := fun _ => Except.ok []
  completedIssuesEstimateSum := fun _ _ => Except.ok 0

/-- A client reporting 42 matching issues for every search. -/
def countJira : JiraClient where
  filter := fun _ => Except.ok ⟨"project=CA"⟩
  search_issues := fun _ _ _ => Except.ok ⟨[], 42⟩
  sprints := fun _ => Except.ok []
  completedIssuesEstimateSum := fun _ _ => Except.ok 0

/-- A client for which every retrieval of `main` succeeds: 5 matching
issues everywhere, no issues paged, no sprints. -/
def okJira : JiraClient where
  filter := fun _ => Except.ok ⟨"jql"⟩
  search_issues := fun _ _ _ => Except.ok ⟨[], 5⟩
  sprints := fun _ => Except.ok []
  completedIssuesEstimateSum := fun _ _ => Except.ok 0

/-- The `values` mapping `main` computes against `okJira`. -/
def okVals : List (String × MetricValue) :=
  (COUNT_QUERIES.map fun kv => (kv.1, MetricValue.count 5)) ++
    [(QRF_DB_KEY, MetricValue.num (roundTo 3 0)),
     (BACKLOG_DEPTH_DB_KEY, MetricValue.num (roundTo 2 0)),
     (SPRINT_BURNDOWN_DB_KEY, MetricValue.num 0),
     (SPRINT_VELOCITY_DB_KEY, MetricValue.nan)]

/-- Like `okJira`, except the sprint listing fails with a non-403
`JIRAError`. -/
def errSprintsJira : JiraClient where
  filter := fun _ => Except.ok ⟨"jql"⟩
  search_issues := fun _ _ _ => Except.ok ⟨[], 5⟩
  sprints := fun _ => Except.error ⟨some 500⟩
  completedIssuesEstimateSum := fun _ _ => Except.ok 0

/-- The `values` mapping `main` computes against `errSprintsJira`: the
sprint-velocity slot holds Python `None`. -/
def errVals : List (String × MetricValue) :=
  (COUNT_QUERIES.map fun kv => (kv.1, MetricValue.count 5)) ++
    [(QRF_DB_KEY, MetricValue.num (roundTo 3 0)),
     (BACKLOG_DEPTH_DB_KEY, MetricValue.num (roundTo 2 0)),
     (SPRINT_BURNDOWN_DB_KEY, MetricValue.num 0),
     (SPRINT_VELOCITY_DB_KEY, MetricValue.pyNone)]

/-! ### Claims -/

/-- Claim C1: for every board whose sprint list is available,
`retrieve_sprint_velocity` selects exactly the sprints that match the
supplied non-empty name pattern (anchored at the start, case-sensitively),
are in the closed state, and are among the first `window` when sorted by
identifier descending.  The concrete conjuncts check the anchoring and
case-sensitivity of the pattern `^xs-ring3\s.+` and that with `window = 3`
and closed sprints of ids `[10, 9, 8, 7, 6]` the selection is `[10, 9, 8]`. -/
theorem sprint_selection_spec :
    (∀ (pat : String) (window : Nat) (sprints : List Sprint), pat ≠ "" →
      latestCompleted (some pat) window sprints =
        (sortDescById ((sprints.filter fun s => reMatch pat s.name).filter
          fun s => s.state == "CLOSED")).take window
      ∧ (∀ s ∈ latestCompleted (some pat) window sprints,
          reMatch pat s.name = true ∧ s.state = "CLOSED" ∧ s ∈ sprints)
      ∧ (latestCompleted (some pat) window sprints).length ≤ window
      ∧ (latestCompleted (some pat) window sprints).Pairwise
          fun a b => b.id ≤ a.id)
    ∧ reMatch SPRINT_REGEX "xs-ring3 Sprint 42" = true
    ∧ reMatch SPRINT_REGEX "other-team Sprint 42" = false
    ∧ reMatch SPRINT_REGEX "a xs-ring3 Sprint 42" = false
    ∧ reMatch SPRINT_REGEX "XS-ring3 Sprint 42" = false
    ∧ (latestCompleted (some SPRINT_REGEX) 3
        [⟨10, "xs-ring3 Sprint 10", "CLOSED"⟩, ⟨9, "xs-ring3 Sprint 9", "CLOSED"⟩,
         ⟨8, "xs-ring3 Sprint 8", "CLOSED"⟩, ⟨7, "xs-ring3 Sprint 7", "CLOSED"⟩,
         ⟨6, "xs-ring3 Sprint 6", "CLOSED"⟩]).map Sprint.id = [10, 9, 8] := by
  refine ⟨?_, by decide, by decide, by decide, by decide, by decide⟩
  intro pat window sprints hpat
  have heq : latestCompleted (some pat) window sprints =
      (sortDescById ((sprints.filter fun s => reMatch pat s.name).filter
        fun s => s.state == "CLOSED")).take window := by
    simp [latestCompleted, filterByRegex, hpat]
  refine ⟨heq, ?_, ?_, ?_⟩
  · intro s hs
    rw [heq] at hs
    have hs2 : s ∈ sortDescById ((sprints.filter fun s => reMatch pat s.name).filter
        fun s => s.state == "CLOSED") := List.take_subset _ _ hs
    have hs3 := mem_sortDescById.1 hs2
    rw [List.mem_filter] at hs3
    obtain ⟨hs4, hclosed⟩ := hs3
    rw [List.mem_filter] at hs4
    obtain ⟨hmem, hre⟩ := hs4
    refine ⟨hre, ?_, hmem⟩
    simp at hclosed
    exact hclosed
  · rw [heq]
    simp
  · rw [heq]
    exact List.Pairwise.sublist (List.take_sublist _ _) (pairwise_sortDescById _)

/-- Witness for C1: the theorem applied at the script's own pattern, window 2
and a concrete sprint list. -/
theorem sprint_selection_spec_witness :
    (latestCompleted (some SPRINT_REGEX) 2
      [⟨3, "xs-ring3 a", "CLOSED"⟩, ⟨5, "xs-ring3 b", "CLOSED"⟩,
       ⟨4, "other c", "CLOSED"⟩]).length ≤ 2 :=
  (sprint_selection_spec.1 SPRINT_REGEX 2
    [⟨3, "xs-ring3 a", "CLOSED"⟩, ⟨5, "xs-ring3 b", "CLOSED"⟩,
     ⟨4, "other c", "CLOSED"⟩] (by decide)).2.2.1

/-- Counterexample to C2 as stated: a run in which the sprint listing
succeeds (one closed sprint) but the sprint's estimate lookup raises a 403
`JIRAError`.  Zero sprints yielded a value, yet the aggregator returns the
`"AUTH_ERROR"` sentinel, not the not-a-number sentinel. -/
theorem velocity_mean_counterexample :
    listOkEstFailJira.sprints 70 = Except.ok [⟨1, "s1", "CLOSED"⟩]
    ∧ (retrieve_sprint_velocity listOkEstFailJira 70 none 3).1 =
        VelocityResult.authError
    ∧ VelocityResult.authError ≠ VelocityResult.nan :=
  ⟨rfl, rfl, by decide⟩

/-- Claim C2 (amended): for every run of the sprint velocity aggregator in
which the sprint listing succeeds and the estimate-collection loop completes
(no estimate lookup raises a `JIRAError`), the returned value is the
arithmetic mean of the collected sums rounded to 1 decimal place, and
whenever zero sprints yielded a value it is the not-a-number sentinel,
not an exception. -/
theorem velocity_mean (jira : JiraClient) (board_id : Nat)
    (sprint_regex : Option String) (window : Nat) (l : List Sprint)
    (vels : List ℚ)
    (hs : jira.sprints board_id = Except.ok l)
    (hc : collectVels (jira.completedIssuesEstimateSum board_id)
        (latestCompleted sprint_regex window l) = Except.ok vels) :
    (retrieve_sprint_velocity jira board_id sprint_regex window).1 =
      match vels with
      | [] => VelocityResult.nan
      | v :: vs => VelocityResult.num
          (roundTo 1 ((v :: vs).sum / ((v :: vs).length : ℚ))) := by
  cases vels with
  | nil => simp [retrieve_sprint_velocity, hs, hc]
  | cons v vs => simp [retrieve_sprint_velocity, hs, hc]

/-- Witness for C2: one closed sprint with estimate sum 5; the mean is
`round(5 / 1, 1)`. -/
theorem velocity_mean_witness :
    (retrieve_sprint_velocity okVelJira 70 none 3).1 =
      VelocityResult.num
        (roundTo 1 (((5 : ℚ) :: ([] : List ℚ)).sum /
          ((((5 : ℚ) :: ([] : List ℚ)).length : Nat) : ℚ))) :=
  velocity_mean okVelJira 70 none 3 [⟨1, "s1", "CLOSED"⟩] [5] rfl rfl

/-- Claim C3: whenever the sprint-listing call raises a `JIRAError` with
status 403, `retrieve_sprint_velocity` returns the `"AUTH_ERROR"` sentinel
(here `VelocityResult.authError`, neither a number nor an exception) after
writing the warning line to standard error; the function returns instead of
aborting the run. -/
theorem velocity_auth_error (jira : JiraClient) (board_id : Nat)
    (sprint_regex : Option String) (window : Nat) (e : JiraError)
    (hs : jira.sprints board_id = Except.error e)
    (h403 : e.status_code = some 403) :
    retrieve_sprint_velocity jira board_id sprint_regex window =
      (VelocityResult.authError, [authWarnLine]) := by
  simp [retrieve_sprint_velocity, hs, h403]

/-- Witness for C3: a client whose sprint listing fails with status 403. -/
theorem velocity_auth_error_witness :
    retrieve_sprint_velocity authSprintsJira 70 (some SPRINT_REGEX) 3 =
      (VelocityResult.authError, [authWarnLine]) :=
  velocity_auth_error authSprintsJira 70 (some SPRINT_REGEX) 3 ⟨some 403⟩ rfl rfl

/-- Claim C4: in the estimate-collection loop of the velocity aggregator,
every sprint whose lookup raises a `KeyError` is skipped (it contributes
nothing to the collected list) and the loop continues: when no lookup raises
a `JIRAError`, the loop completes with exactly the successful values in
sprint order (`Except.toOption` filter-mapped over the selected sprints),
rather than failing. -/
theorem collect_skips_keyerror (est : Nat → Except EstError ℚ)
    (l : List Sprint)
    (h : ∀ s ∈ l, ∀ e, est s.id ≠ Except.error (EstError.jiraError e)) :
    collectVels est l =
      Except.ok (l.filterMap fun s => (est s.id).toOption) := by
  induction l with
  | nil => simp [collectVels]
  | cons s rest ih =>
    have hs := h s (List.mem_cons_self s rest)
    have hrest : ∀ t ∈ rest, ∀ e,
        est t.id ≠ Except.error (EstError.jiraError e) :=
      fun t ht => h t (List.mem_cons_of_mem s ht)
    cases hest : est s.id with
    | ok v => simp [collectVels, hest, ih hrest, Except.toOption]
    | error err =>
      cases err with
      | keyError => simp [collectVels, hest, ih hrest, Except.toOption]
      | jiraError e => exact absurd hest (hs e)

/-- Witness for C4: sprint 2's lookup raises `KeyError` and is skipped; the
collection still succeeds with the other two sprints' values. -/
theorem collect_skips_keyerror_witness :
    collectVels skipEst
      [⟨1, "a", "CLOSED"⟩, ⟨2, "b", "CLOSED"⟩, ⟨3, "c", "CLOSED"⟩] =
      Except.ok [7, 7] :=
  collect_skips_keyerror skipEst
    [⟨1, "a", "CLOSED"⟩, ⟨2, "b", "CLOSED"⟩, ⟨3, "c", "CLOSED"⟩]
    (by intro s hs e; fin_cases hs <;> simp [skipEst])

/-- Claim C5: for every filter and field name, `retrieve_sum_of_field`
returns the arithmetic sum of the field over the issues the search returned,
where an absent/null field value contributes exactly 0 (the sum equals the
sum of `getD 0` over all issues); in particular it returns 0 for zero
matching issues and 8 for field values 5, null, 3. -/
theorem sum_of_field_spec :
    (∀ (jira : JiraClient) (jira_filter : Nat) (field : String)
        (r : SearchResult),
      retrieve_issues jira jira_filter [field] = Except.ok r →
      retrieve_sum_of_field jira jira_filter field =
        Except.ok ((r.issues.map fun issue =>
          (issue.fieldValue field).getD 0).sum))
    ∧ retrieve_sum_of_field nullFieldJira 1 "f" = Except.ok 8
    ∧ retrieve_sum_of_field emptyJira 1 "f" = Except.ok 0 := by
  refine ⟨?_, ?_, ?_⟩
  · intro jira jira_filter field r h
    simp [retrieve_sum_of_field, h, Except.map, filterMap_fieldValue_sum]
  · simp [retrieve_sum_of_field, retrieve_issues, nullFieldJira, Except.map]
    norm_num
  · simp [retrieve_sum_of_field, retrieve_issues, emptyJira, Except.map]

/-- Witness for C5: the general clause applied to the 5/null/3 client. -/
theorem sum_of_field_spec_witness :
    retrieve_sum_of_field nullFieldJira 1 "f" =
      Except.ok (((⟨[⟨fun _ => some 5⟩, ⟨fun _ => none⟩, ⟨fun _ => some 3⟩], 3⟩ :
        SearchResult).issues.map fun issue =>
          (issue.fieldValue "f").getD 0).sum) :=
  sum_of_field_spec.1 nullFieldJira 1 "f"
    ⟨[⟨fun _ => some 5⟩, ⟨fun _ => none⟩, ⟨fun _ => some 3⟩], 3⟩ rfl

/-- Claim C6: `retrieve_qrf` is exactly the DRV field sum rounded to 3
decimal places and `retrieve_backlog_depth` exactly the story-points field
sum rounded to 2 decimal places; `roundTo n` really is rounding to `n`
decimal places: scaled by `10 ^ n` it is an integer, and it is within half
of `10 ^ -n` of its argument. -/
theorem qrf_backlog_rounding :
    (∀ jira : JiraClient,
      retrieve_qrf jira =
        (retrieve_sum_of_field jira QRF_JIRA_FILTER DRV_FIELD).map (roundTo 3)
      ∧ retrieve_backlog_depth jira =
        (retrieve_sum_of_field jira BACKLOG_DEPTH_JIRA_FILTER
          STORY_POINTS_FIELD).map (roundTo 2))
    ∧ (∀ x : ℚ, roundTo 3 x * 10 ^ 3 = (pyRoundInt (x * 10 ^ 3) : ℚ)
        ∧ |roundTo 3 x - x| ≤ 1 / 2000)
    ∧ (∀ x : ℚ, roundTo 2 x * 10 ^ 2 = (pyRoundInt (x * 10 ^ 2) : ℚ)
        ∧ |roundTo 2 x - x| ≤ 1 / 200) := by
  refine ⟨fun jira => ⟨rfl, rfl⟩, fun x => ⟨roundTo_mul_pow 3 x, ?_⟩,
    fun x => ⟨roundTo_mul_pow 2 x, ?_⟩⟩
  · have h := roundTo_close 3 x
    norm_num at h
    norm_num [h]
  · have h := roundTo_close 2 x
    norm_num at h
    norm_num [h]

/-- Claim C7: `retrieve_issue_count` resolves the filter and searches with
`maxResults = 1` and only the key field projected (at most one issue's
fields), returning the search result's `total`; if the filter resolution or
the search raises a `JIRAError` (unreachable tracker, invalid filter), the
process terminates with exit status 3 after a diagnostic line on standard
error. -/
theorem issue_count_spec (jira : JiraClient) (jira_filter : Nat) :
    (∀ flt, jira.filter jira_filter = Except.ok flt →
      (∀ r, jira.search_issues flt.jql (some 1) KEY_FIELD = Except.ok r →
        retrieve_issue_count jira jira_filter = Except.ok r.total)
      ∧ (∀ e, jira.search_issues flt.jql (some 1) KEY_FIELD = Except.error e →
        retrieve_issue_count jira jira_filter =
          Except.error ⟨3, [jiraFailLine]⟩))
    ∧ (∀ e, jira.filter jira_filter = Except.error e →
      retrieve_issue_count jira jira_filter =
        Except.error ⟨3, [jiraFailLine]⟩) := by
  have hkey : String.intercalate "," [KEY_FIELD] = KEY_FIELD := rfl
  refine ⟨fun flt hflt => ⟨fun r hr => ?_, fun e he => ?_⟩, fun e he => ?_⟩
  · simp [retrieve_issue_count, retrieve_issues, hflt, hkey, hr, Except.map]
  · simp [retrieve_issue_count, retrieve_issues, hflt, hkey, he, Except.map]
  · simp [retrieve_issue_count, retrieve_issues, he, Except.map]

/-- Witness for C7: the count of a client reporting `total = 42`. -/
theorem issue_count_spec_witness :
    retrieve_issue_count countJira 47168 = Except.ok 42 :=
  ((issue_count_spec countJira 47168).1 ⟨"project=CA"⟩ rfl).1 ⟨[], 42⟩ rfl

/-- Claim C8: in dry-run mode a run performs zero `db_write` invocations
regardless of the computed values; it prints the collected mapping and
exits with status 0. -/
theorem dry_run_no_writes (jira : JiraClient) (timeSec : Nat)
    (vals : List (String × MetricValue)) (warnings : List String)
    (h : computeValues jira = Except.ok (vals, warnings)) :
    (main jira true timeSec).writes = []
    ∧ (main jira true timeSec).printed = some vals
    ∧ (main jira true timeSec).exitCode = 0 := by
  simp [main, h]

/-- Witness for C8: a dry run against the all-success client. -/
theorem dry_run_no_writes_witness :
    (main okJira true 0).writes = []
    ∧ (main okJira true 0).printed = some okVals
    ∧ (main okJira true 0).exitCode = 0 :=
  dry_run_no_writes okJira 0 okVals [] rfl

/-- Claim C9: every metric persisted in a single run is written with one
and the same nanosecond timestamp, `int(time.time()) * 10 ** 9` for the
single clock sample captured before the write loop; hence no two writes of
one run carry different timestamps. -/
theorem shared_timestamp (jira : JiraClient) (dry : Bool) (timeSec : Nat) :
    ∀ w ∈ (main jira dry timeSec).writes, w.tstamp = timeSec * 10 ^ 9 := by
  intro w hw
  unfold main at hw
  split at hw
  · simp at hw
  · split at hw
    · simp at hw
    · simp only [List.mem_map] at hw
      obtain ⟨kv, _, rfl⟩ := hw
      rfl

/-- Witness for C9: the first write of a non-dry run against the
all-success client carries the shared timestamp. -/
theorem shared_timestamp_witness :
    (⟨DB_URI, "dc_inbox", MetricValue.count 5, 7 * 10 ^ 9⟩ : WriteCall).tstamp =
      7 * 10 ^ 9 :=
  shared_timestamp okJira false 7 ⟨DB_URI, "dc_inbox", MetricValue.count 5, 7 * 10 ^ 9⟩
    (by simp [main, okJira, computeValues, computeCounts, COUNT_QUERIES,
      retrieve_issue_count, retrieve_issues, retrieve_qrf,
      retrieve_backlog_depth, retrieve_sprint_burndown,
      retrieve_sum_of_field, Except.map])

/-- Claim C10: if the sprint-listing call raises a `JIRAError` whose status
is not 403, `retrieve_sprint_velocity` returns Python `None` (no number, no
sentinel string, no exit, nothing on standard error), and a run that
otherwise succeeds records exactly that absent value for the
sprint-velocity key. -/
theorem velocity_none_on_other_error :
    (∀ (jira : JiraClient) (board_id : Nat) (sprint_regex : Option String)
        (window : Nat) (e : JiraError),
      jira.sprints board_id = Except.error e → e.status_code ≠ some 403 →
      retrieve_sprint_velocity jira board_id sprint_regex window =
        (VelocityResult.pyNone, []))
    ∧ (∀ (jira : JiraClient) (e : JiraError)
        (vals : List (String × MetricValue)) (warnings : List String),
      jira.sprints SPRINT_BOARD_ID = Except.error e →
      e.status_code ≠ some 403 →
      computeValues jira = Except.ok (vals, warnings) →
      (SPRINT_VELOCITY_DB_KEY, MetricValue.pyNone) ∈ vals) := by
  have hvel : ∀ (jira : JiraClient) (board_id : Nat)
      (sprint_regex : Option String) (window : Nat) (e : JiraError),
      jira.sprints board_id = Except.error e → e.status_code ≠ some 403 →
      retrieve_sprint_velocity jira board_id sprint_regex window =
        (VelocityResult.pyNone, []) := by
    intro jira board_id sprint_regex window e hs h403
    simp [retrieve_sprint_velocity, hs, h403]
  refine ⟨hvel, ?_⟩
  intro jira e vals warnings hs h403 hcv
  unfold computeValues at hcv
  split at hcv
  · exact absurd hcv (by simp)
  · split at hcv
    · exact absurd hcv (by simp)
    · split at hcv
      · exact absurd hcv (by simp)
      · split at hcv
        · exact absurd hcv (by simp)
        · rw [Except.ok.injEq, Prod.mk.injEq] at hcv
          obtain ⟨hvals, _⟩ := hcv
          rw [← hvals]
          rw [hvel jira SPRINT_BOARD_ID (some SPRINT_REGEX) 3 e hs h403]
          simp [velocityToMetric]

/-- Witness for C10: a run whose sprint listing fails with status 500
records `None` for the sprint-velocity key. -/
theorem velocity_none_on_other_error_witness :
    (SPRINT_VELOCITY_DB_KEY, MetricValue.pyNone) ∈ errVals :=
  velocity_none_on_other_error.2 errSprintsJira ⟨some 500⟩ errVals []
    rfl (by decide) rfl

end Tickets
